import Mathlib

/-!
Verification of the rule-evaluation engine of the AcbsBlacklist repository.

The engine lives in the POST /api/rules/validate handler of
src/server/routes.ts.  That file holds two concatenated variants of
registerRoutes; the embedding below models both validate handlers:

* variant 1 (lines 294-470): groups conditions with a Map keyed by orGroup,
  pre-seeded with a bucket holding every condition whose orGroup is null;
  its operator switch trims IN / NOT IN segments and has a BETWEEN case;
* variant 2 (lines 692-855): groups conditions in a Record keyed by the
  string of orGroup, falling back to the string of conditionId when orGroup
  is null; its operator switch does not trim IN / NOT IN segments and has
  no BETWEEN case.

Machine numbers are modelled as Int: every numeric value handled by the
repository (years, prices, odometer readings, identifiers) is an integer,
and the JavaScript coercion Number(...) is modelled on the integer fragment,
with NaN represented as Option.none.
-/

namespace AcbsBlacklist

/-- A JavaScript scalar as it can appear in a field of the validation request
body: a string, an integer number, or the JSON null. -/
inductive JsVal where
  | str (s : String)
  | num (n : Int)
  | nullV
  deriving Repr, DecidableEq

/-- Model of the JavaScript conversion value.toString() on the scalars above;
the nullV case is unreachable in the handler because a null field is rejected
before any operator runs. -/
def jsToString : JsVal → String
  | .str s => s
  | .num n => toString n
  | .nullV => "null"

/-- Numeric value of a decimal digit character. -/
def digitVal (c : Char) : Nat := c.toNat - 48

/-- Whitespace for the purposes of the JavaScript trim, on the ASCII fragment
the repository uses: tab, line feed, vertical tab, form feed, carriage return
and space. -/
def isJsSpace (c : Char) : Bool :=
  c.toNat = 32 || c.toNat = 9 || c.toNat = 10 || c.toNat = 11 || c.toNat = 12 || c.toNat = 13

/-- Leading whitespace removed from a character list. -/
def dropLeadingSpaces : List Char → List Char
  | [] => []
  | c :: rest => if isJsSpace c then dropLeadingSpaces rest else c :: rest

/-- Model of the JavaScript String.prototype.trim: whitespace removed from
both ends. -/
def jsTrim (s : String) : String :=
  String.mk ((dropLeadingSpaces ((dropLeadingSpaces s.data).reverse)).reverse)

/-- Splitting of a character list at every comma; the JavaScript split keeps
empty segments, and the empty input yields one empty segment. -/
def splitCommaAux : List Char → List (List Char)
  | [] => [[]]
  | c :: rest =>
    match splitCommaAux rest with
    | [] => [[]]
    | seg :: segs => if c.toNat = 44 then [] :: seg :: segs else (c :: seg) :: segs

/-- Model of the JavaScript call s.split on a comma separator. -/
def splitComma (s : String) : List String :=
  (splitCommaAux s.data).map (fun cs => String.mk cs)

/-- Accumulating decimal reader; none as soon as a character is not a
digit. -/
def parseDigitsAux : List Char → Nat → Option Nat
  | [], acc => some acc
  | c :: rest, acc =>
    if 48 ≤ c.toNat && c.toNat ≤ 57 then parseDigitsAux rest (acc * 10 + digitVal c)
    else none

/-- Decimal reading of a nonempty list of digits; none when empty or when a
character is not a digit, matching the NaN result of Number(...) on such
input. -/
def parseDigits : List Char → Option Nat
  | [] => none
  | c :: rest => parseDigitsAux (c :: rest) 0

/-- Model of the JavaScript coercion Number(s) on the integer fragment used by
the repository: surrounding whitespace ignored, the empty string is 0, an
optional sign followed by digits is read in decimal, anything else is NaN,
modelled as none. -/
def parseNum (s : String) : Option Int :=
  match (jsTrim s).data with
  | [] => some 0
  | c :: rest =>
    if c.toNat = 45 then (parseDigits rest).map (fun n => -(n : Int))
    else if c.toNat = 43 then (parseDigits rest).map (fun n => (n : Int))
    else (parseDigits (c :: rest)).map (fun n => (n : Int))

/-- Model of Number(value) applied to a request scalar. -/
def toNumber : JsVal → Option Int
  | .str s => parseNum s
  | .num n => some n
  | .nullV => some 0

/-- Comparison a < b on JavaScript numbers: false when either side is NaN. -/
def jsLt : Option Int → Option Int → Bool
  | some a, some b => decide (a < b)
  | _, _ => false

/-- Comparison a > b on JavaScript numbers: false when either side is NaN. -/
def jsGt : Option Int → Option Int → Bool
  | some a, some b => decide (a > b)
  | _, _ => false

/-- Comparison a <= b on JavaScript numbers: false when either side is NaN. -/
def jsLe : Option Int → Option Int → Bool
  | some a, some b => decide (a ≤ b)
  | _, _ => false

/-- Comparison a >= b on JavaScript numbers: false when either side is NaN. -/
def jsGe : Option Int → Option Int → Bool
  | some a, some b => decide (a ≥ b)
  | _, _ => false

/-- Operator switch of the first validate handler (src/server/routes.ts lines
397-422): string equality for "=" and "!=", NaN-aware numeric comparison for
the order operators, comma-split membership with trimmed segments for "IN"
and "NOT IN", an inclusive "BETWEEN" on the first two comma-split bounds, and
false on the default branch. -/
def evalOperatorV1 (op storedValue : String) (value : JsVal) : Bool :=
  if op = "=" then jsToString value == storedValue
  else if op = "!=" then jsToString value != storedValue
  else if op = ">" then jsGt (toNumber value) (parseNum storedValue)
  else if op = "<" then jsLt (toNumber value) (parseNum storedValue)
  else if op = ">=" then jsGe (toNumber value) (parseNum storedValue)
  else if op = "<=" then jsLe (toNumber value) (parseNum storedValue)
  else if op = "IN" then
    ((splitComma storedValue).map jsTrim).contains (jsToString value)
  else if op = "NOT IN" then
    !((splitComma storedValue).map jsTrim).contains (jsToString value)
  else if op = "BETWEEN" then
    let bounds := (splitComma storedValue).map parseNum
    jsGe (toNumber value) (bounds.getD 0 none) && jsLe (toNumber value) (bounds.getD 1 none)
  else false

/-- Operator switch of the second validate handler (src/server/routes.ts lines
786-807): as the first, except that the "IN" and "NOT IN" segments are not
trimmed and there is no "BETWEEN" case, so "BETWEEN" falls to the default
branch and yields false. -/
def evalOperatorV2 (op storedValue : String) (value : JsVal) : Bool :=
  if op = "=" then jsToString value == storedValue
  else if op = "!=" then jsToString value != storedValue
  else if op = ">" then jsGt (toNumber value) (parseNum storedValue)
  else if op = "<" then jsLt (toNumber value) (parseNum storedValue)
  else if op = ">=" then jsGe (toNumber value) (parseNum storedValue)
  else if op = "<=" then jsLe (toNumber value) (parseNum storedValue)
  else if op = "IN" then
    (splitComma storedValue).contains (jsToString value)
  else if op = "NOT IN" then
    !(splitComma storedValue).contains (jsToString value)
  else false

/-- Row of the conditions table (src/db/schema.ts): a single comparison owned
by one condition group, with an optional or-group tag. -/
structure Condition where
  conditionId : Nat
  conditionGroupId : Nat
  parameter : String
  operator : String
  value : String
  orGroup : Option Int
  deriving Repr, DecidableEq

/-- Evaluation of one condition by the first handler: the request field named
by the parameter of the condition is looked up; an undefined or null field
yields false before any operator runs. -/
def evalConditionV1 (fields : String → Option JsVal) (c : Condition) : Bool :=
  match fields c.parameter with
  | none => false
  | some .nullV => false
  | some v => evalOperatorV1 c.operator c.value v

/-- Evaluation of one condition by the second handler. -/
def evalConditionV2 (fields : String → Option JsVal) (c : Condition) : Bool :=
  match fields c.parameter with
  | none => false
  | some .nullV => false
  | some v => evalOperatorV2 c.operator c.value v

/-- Distinct non-null or-group tags of a list of conditions, in the order the
Map of the first handler acquires its non-null keys; only order-insensitive
facts are proved about them. -/
def orGroupTags (groupConditions : List Condition) : List Int :=
  (groupConditions.filterMap (fun c => c.orGroup)).dedup

/-- Buckets of the orGroups Map of the first handler (src/server/routes.ts
lines 372-386): the Map is seeded at key null with every condition whose
orGroup is null, even when there is none, and every condition with a non-null
orGroup is pushed onto the bucket of its tag. -/
def orGroupBucketsV1 (groupConditions : List Condition) : List (List Condition) :=
  groupConditions.filter (fun c => c.orGroup.isNone) ::
    (orGroupTags groupConditions).map
      (fun t => groupConditions.filter (fun c => c.orGroup == some t))

/-- Group matcher of the first handler (src/server/routes.ts lines 388-424):
every bucket of the Map must hold at least one condition that evaluates
true. -/
def groupMatchesV1 (fields : String → Option JsVal) (groupConditions : List Condition) : Bool :=
  (orGroupBucketsV1 groupConditions).all (fun bucket => bucket.any (evalConditionV1 fields))

/-- Record key of a condition in the second handler (src/server/routes.ts line
773): the template string of orGroup when non-null, else of conditionId. -/
def conditionKey (c : Condition) : String :=
  match c.orGroup with
  | some t => toString t
  | none => toString c.conditionId

/-- Buckets of the orGroups Record of the second handler (src/server/routes.ts
lines 770-776): conditions sharing a key share a bucket. -/
def orGroupBucketsV2 (groupConditions : List Condition) : List (List Condition) :=
  ((groupConditions.map conditionKey).dedup).map
    (fun k => groupConditions.filter (fun c => conditionKey c == k))

/-- Group matcher of the second handler (src/server/routes.ts lines 778-809):
every bucket of the Record must hold at least one condition that evaluates
true. -/
def groupMatchesV2 (fields : String → Option JsVal) (groupConditions : List Condition) : Bool :=
  (orGroupBucketsV2 groupConditions).all (fun bucket => bucket.any (evalConditionV2 fields))

/-- Modelled from the spec, section 4.2: the claimed unit semantics, with the
per-condition evaluation abstracted as p.  Each condition with a null or-group
tag is its own singleton unit and must hold individually; each distinct
non-null tag forms one unit satisfied when any member holds; the group is
satisfied when every unit is.  This definition follows the words of the spec
and exists to be compared with the two matchers taken from the source. -/
def unitsSatisfied (p : Condition → Bool) (groupConditions : List Condition) : Bool :=
  (groupConditions.filter (fun c => c.orGroup.isNone)).all p &&
    (orGroupTags groupConditions).all
      (fun t => (groupConditions.filter (fun c => c.orGroup == some t)).any p)

/-- Row of the rules table (src/db/schema.ts): scalar filters, lifecycle
fields and the action of a named policy. -/
structure Rule where
  ruleId : Nat
  ruleName : String
  ruleType : String
  validUntil : Option Int
  status : String
  action : String
  actionMessage : Option String
  customer : String
  country : String
  opportunitySource : String
  makeYear : Option Int
  deriving Repr, DecidableEq

/-- Row of the condition_groups table (src/db/schema.ts): an AND-unit owned by
one rule. -/
structure ConditionGroup where
  conditionGroupId : Nat
  ruleId : Nat
  deriving Repr, DecidableEq

/-- Validation request body of POST /api/rules/validate: context fields read
by name by the handler, plus the open map of vehicle fields indexed by the
parameter of a condition; none stands for an undefined field. -/
structure ValidationQuery where
  ruleType : String
  country : String
  customer : String
  opportunitySource : String
  yearComparison : Option String
  makeYear : Option Int
  fields : String → Option JsVal

/-- Snapshot of the rule store a validation call reads: the rules, condition
groups and conditions tables. -/
structure Store where
  rules : List Rule
  conditionGroups : List ConditionGroup
  conditions : List Condition

/-- Truthiness of an optional string under JavaScript: an absent value and the
empty string are falsy. -/
def optStrTruthy : Option String → Bool
  | some s => s ≠ ""
  | none => false

/-- Truthiness of an optional integer under JavaScript: an absent value and
zero are falsy. -/
def optIntTruthy : Option Int → Bool
  | some n => n ≠ 0
  | none => false

/-- Basic criteria matching of the validate handler (src/server/routes.ts
lines 316-320): each of country, customer and opportunitySource of the rule is
the wildcard Any or equals the query field. -/
def basicMatches (q : ValidationQuery) (r : Rule) : Bool :=
  (r.country == "Any" || r.country == q.country) &&
    (r.customer == "Any" || r.customer == q.customer) &&
    (r.opportunitySource == "Any" || r.opportunitySource == q.opportunitySource)

/-- Year comparison logic of the validate handler (src/server/routes.ts lines
326-340): yearMatch starts true and is recomputed only when yearComparison of
the query, makeYear of the query and makeYear of the rule are all truthy; a
yearComparison outside the three known cases leaves yearMatch true. -/
def yearMatches (q : ValidationQuery) (r : Rule) : Bool :=
  if optStrTruthy q.yearComparison && optIntTruthy q.makeYear && optIntTruthy r.makeYear then
    let yc := q.yearComparison.getD ""
    let qy := q.makeYear.getD 0
    let ry := r.makeYear.getD 0
    if yc = "=" then qy == ry
    else if yc = ">" then qy > ry
    else if yc = "<" then qy < ry
    else true
  else true

/-- Condition groups the handler loads for a rule (select where ruleId
matches). -/
def groupsOfRule (s : Store) (r : Rule) : List ConditionGroup :=
  s.conditionGroups.filter (fun g => g.ruleId == r.ruleId)

/-- Conditions the handler loads for a condition group (select where
conditionGroupId matches). -/
def conditionsOfGroup (s : Store) (g : ConditionGroup) : List Condition :=
  s.conditions.filter (fun c => c.conditionGroupId == g.conditionGroupId)

/-- Outcome of the body of the per-rule loop of the first validate handler for
one rule: the rule does not match and the loop continues; the rule matches
with zero condition groups and the handler returns without touching the audit
log; or the rule matches through its condition groups and the handler inserts
an audit row before returning. -/
inductive RuleStep where
  | noMatch
  | matchNoGroups
  | matchWithAudit
  deriving Repr, DecidableEq

/-- Body of the per-rule loop of the first validate handler (src/server/
routes.ts lines 313-446): basic criteria, then the year comparison, then the
zero-condition-groups early return, then every loaded condition group must be
empty or match. -/
def processRule (s : Store) (q : ValidationQuery) (r : Rule) : RuleStep :=
  if !basicMatches q r then .noMatch
  else if !yearMatches q r then .noMatch
  else
    let ruleGroups := groupsOfRule s r
    if ruleGroups.isEmpty then .matchNoGroups
    else if ruleGroups.all (fun g =>
        let groupConditions := conditionsOfGroup s g
        groupConditions.isEmpty || groupMatchesV1 q.fields groupConditions) then
      .matchWithAudit
    else .noMatch

/-- Body of POST /api/rules/validate as sent back to the caller on the 200
path. -/
structure ValidationResponse where
  isMatch : Bool
  action : Option String
  actionMessage : Option String
  deriving Repr, DecidableEq

/-- Response the handler builds from a matching rule. -/
def matchResponse (r : Rule) : ValidationResponse :=
  { isMatch := true, action := some r.action, actionMessage := r.actionMessage }

/-- Response the handler builds when no rule matches, with its literal
message. -/
def noMatchResponse : ValidationResponse :=
  { isMatch := false, action := none, actionMessage := some "No matching rules found" }

/-- Audit row the handler inserts: the matched rule id, or none on the
no-match path, and the success flag.  The serialized request and response
strings of the audit_log table are opaque to every claim and are not
modelled. -/
structure AuditEntry where
  ruleId : Option Nat
  success : Bool
  deriving Repr, DecidableEq

/-- HTTP-level outcome of the handler: a 200 response with a validation body,
or the 500 error of the outer catch. -/
inductive HttpResult where
  | ok (resp : ValidationResponse)
  | serverError
  deriving Repr, DecidableEq

/-- Loop of the first validate handler over the applicable rules, together
with the audit rows the call appends.  auditFails models a failing audit
store: an insert into audit_log throws instead of appending.  On the match
path the insert runs inside the per-rule try, so its failure is caught and
the loop continues with the next rule; after the loop the no-match insert
runs inside the outer try only, so its failure reaches the outer catch and
the caller receives the 500 error. -/
def validateLoop (s : Store) (q : ValidationQuery) (auditFails : Bool) :
    List Rule → HttpResult × List AuditEntry
  | [] =>
    if auditFails then (.serverError, [])
    else (.ok noMatchResponse, [{ ruleId := none, success := false }])
  | r :: rest =>
    match processRule s q r with
    | .noMatch => validateLoop s q auditFails rest
    | .matchNoGroups => (.ok (matchResponse r), [])
    | .matchWithAudit =>
      if auditFails then validateLoop s q auditFails rest
      else (.ok (matchResponse r), [{ ruleId := some r.ruleId, success := true }])

/-- Rules the handler fetches for a validation query (src/server/routes.ts
lines 300-308): ruleType equal to the query and status Active, with no order
clause, so the list order is whatever the store returns. -/
def applicableRules (s : Store) (q : ValidationQuery) : List Rule :=
  s.rules.filter (fun r => r.ruleType == q.ruleType && r.status == "Active")

/-- The POST /api/rules/validate handler of the first variant, returning the
HTTP outcome and the audit rows appended by the call. -/
def validate (s : Store) (q : ValidationQuery) (auditFails : Bool) :
    HttpResult × List AuditEntry :=
  validateLoop s q auditFails (applicableRules s q)

/-- A validation query matching every wildcard rule: concrete context fields
and one vehicle field, make 10. -/
def c1Query : ValidationQuery :=
  { ruleType := "Global", country := "CZ", customer := "Private",
    opportunitySource := "Webform", yearComparison := none, makeYear := none,
    fields := fun p => if p = "make" then some (.str "10") else none }

/-- An Active wildcard rule whose validUntil expired at timestamp 0. -/
def c1Rule : Rule :=
  { ruleId := 1, ruleName := "Expired rule", ruleType := "Global",
    validUntil := some 0, status := "Active", action := "POZVI - NESLIBUJ",
    actionMessage := some "invite", customer := "Any", country := "Any",
    opportunitySource := "Any", makeYear := none }

/-- Store holding only the expired rule, with one condition group and one
condition on make so that the rule matches through the full audit path. -/
def c1Store : Store :=
  { rules := [c1Rule],
    conditionGroups := [{ conditionGroupId := 11, ruleId := 1 }],
    conditions := [{ conditionId := 101, conditionGroupId := 11, parameter := "make",
                     operator := "=", value := "10", orGroup := none }] }

/-- An Active wildcard rule that owns no condition group at all. -/
def c2Rule : Rule :=
  { ruleId := 4, ruleName := "Rule without groups", ruleType := "Global",
    validUntil := none, status := "Active", action := "NEZVI - NECHCEME",
    actionMessage := some "reject", customer := "Any", country := "Any",
    opportunitySource := "Any", makeYear := none }

/-- Store holding only the rule with zero condition groups. -/
def c2Store : Store := { rules := [c2Rule], conditionGroups := [], conditions := [] }

/-- A validation query matching the wildcard filters of the c2 rule. -/
def c2Query : ValidationQuery :=
  { ruleType := "Global", country := "CZ", customer := "Private",
    opportunitySource := "Webform", yearComparison := none, makeYear := none,
    fields := fun _ => none }

/-- First condition of the OR-unit of the second rule of the repository test
suite: make equals 10, tagged with or-group 1. -/
def c3CondA : Condition :=
  { conditionId := 1, conditionGroupId := 1, parameter := "make",
    operator := "=", value := "10", orGroup := some 1 }

/-- Second condition of the same OR-unit: make equals 6, tagged with or-group
1. -/
def c3CondB : Condition :=
  { conditionId := 2, conditionGroupId := 1, parameter := "make",
    operator := "=", value := "6", orGroup := some 1 }

/-- Candidate vehicle of the repository test: make 6. -/
def c3Fields : String → Option JsVal :=
  fun p => if p = "make" then some (.str "6") else none

/-- An Active wildcard rule owning one condition group with one matching
condition, used to drive the audited match path. -/
def c7Rule : Rule :=
  { ruleId := 7, ruleName := "Audited rule", ruleType := "Global",
    validUntil := none, status := "Active", action := "POZVI - NESLIBUJ",
    actionMessage := some "invite", customer := "Any", country := "Any",
    opportunitySource := "Any", makeYear := none }

/-- Store holding the audited rule with its group and condition on make. -/
def c7Store : Store :=
  { rules := [c7Rule],
    conditionGroups := [{ conditionGroupId := 71, ruleId := 7 }],
    conditions := [{ conditionId := 701, conditionGroupId := 71, parameter := "make",
                     operator := "=", value := "10", orGroup := none }] }

/-- A validation query whose make field satisfies the condition of the audited
rule. -/
def c7Query : ValidationQuery :=
  { ruleType := "Global", country := "CZ", customer := "Private",
    opportunitySource := "Webform", yearComparison := none, makeYear := none,
    fields := fun p => if p = "make" then some (.str "10") else none }

/-- An Active wildcard rule with identifier 1 and no condition groups. -/
def c8RuleA : Rule :=
  { ruleId := 1, ruleName := "Lower id", ruleType := "Global",
    validUntil := none, status := "Active", action := "POZVI - NESLIBUJ",
    actionMessage := some "first by id", customer := "Any", country := "Any",
    opportunitySource := "Any", makeYear := none }

/-- An Active wildcard rule with identifier 2 and no condition groups. -/
def c8RuleB : Rule :=
  { ruleId := 2, ruleName := "Higher id", ruleType := "Global",
    validUntil := none, status := "Active", action := "NEZVI - NECHCEME",
    actionMessage := some "first in store order", customer := "Any", country := "Any",
    opportunitySource := "Any", makeYear := none }

/-- Store returning the two rules with the higher identifier first, as a
select without an order clause may. -/
def c8Store : Store := { rules := [c8RuleB, c8RuleA], conditionGroups := [], conditions := [] }

/-- A validation query both c8 rules match. -/
def c8Query : ValidationQuery :=
  { ruleType := "Global", country := "CZ", customer := "Private",
    opportunitySource := "Webform", yearComparison := none, makeYear := none,
    fields := fun _ => none }

/-- With a working audit store the loop always answers 200: either the first
matching rule shapes the response, or every rule fails and the no-match
response is sent. -/
theorem validateLoop_no_audit_failure (s : Store) (q : ValidationQuery) (rs : List Rule) :
    ∃ resp : ValidationResponse,
      (validateLoop s q false rs).1 = HttpResult.ok resp ∧
      ((∃ r ∈ rs, processRule s q r ≠ RuleStep.noMatch ∧ resp = matchResponse r) ∨
        ((∀ r ∈ rs, processRule s q r = RuleStep.noMatch) ∧ resp = noMatchResponse)) := by
  induction rs with
  | nil => exact ⟨noMatchResponse, rfl, Or.inr ⟨by simp, rfl⟩⟩
  | cons r rest ih =>
    cases h : processRule s q r with
    | noMatch =>
      obtain ⟨resp, h1, h2⟩ := ih
      refine ⟨resp, by simpa [validateLoop, h] using h1, ?_⟩
      rcases h2 with ⟨r2, hmem, hne, he⟩ | ⟨hall, he⟩
      · exact Or.inl ⟨r2, List.mem_cons_of_mem _ hmem, hne, he⟩
      · refine Or.inr ⟨?_, he⟩
        intro r2 hr2
        rcases List.mem_cons.mp hr2 with hr2 | hr2
        · exact hr2 ▸ h
        · exact hall r2 hr2
    | matchNoGroups =>
      exact ⟨matchResponse r, by simp [validateLoop, h],
        Or.inl ⟨r, List.mem_cons_self r rest, by simp [h], rfl⟩⟩
    | matchWithAudit =>
      exact ⟨matchResponse r, by simp [validateLoop, h],
        Or.inl ⟨r, List.mem_cons_self r rest, by simp [h], rfl⟩⟩

/-- With a failing audit store the loop appends nothing, and it answers the
500 error unless a rule with zero condition groups matches, since only that
return path never attempts an audit insert. -/
theorem validateLoop_audit_failure (s : Store) (q : ValidationQuery) (rs : List Rule) :
    (validateLoop s q true rs).2 = [] ∧
    ((validateLoop s q true rs).1 = HttpResult.serverError ∨
      ∃ r ∈ rs, processRule s q r = RuleStep.matchNoGroups ∧
        (validateLoop s q true rs).1 = HttpResult.ok (matchResponse r)) := by
  induction rs with
  | nil => exact ⟨rfl, Or.inl rfl⟩
  | cons r rest ih =>
    cases h : processRule s q r with
    | noMatch =>
      obtain ⟨h1, h2⟩ := ih
      refine ⟨by simpa [validateLoop, h] using h1, ?_⟩
      rcases h2 with h2 | ⟨r2, hmem, hg, he⟩
      · exact Or.inl (by simpa [validateLoop, h] using h2)
      · exact Or.inr ⟨r2, List.mem_cons_of_mem _ hmem, hg,
          by simpa [validateLoop, h] using he⟩
    | matchNoGroups =>
      exact ⟨by simp [validateLoop, h],
        Or.inr ⟨r, List.mem_cons_self r rest, h, by simp [validateLoop, h]⟩⟩
    | matchWithAudit =>
      obtain ⟨h1, h2⟩ := ih
      refine ⟨by simpa [validateLoop, h] using h1, ?_⟩
      rcases h2 with h2 | ⟨r2, hmem, hg, he⟩
      · exact Or.inl (by simpa [validateLoop, h] using h2)
      · exact Or.inr ⟨r2, List.mem_cons_of_mem _ hmem, hg,
          by simpa [validateLoop, h] using he⟩

/-- The loop returns the response of the first rule, in list order, whose step
is not noMatch, whatever comes after it. -/
theorem validateLoop_first_match (s : Store) (q : ValidationQuery)
    (skipped rest : List Rule) (r : Rule)
    (hskip : ∀ rp ∈ skipped, processRule s q rp = RuleStep.noMatch)
    (hr : processRule s q r ≠ RuleStep.noMatch) :
    (validateLoop s q false (skipped ++ r :: rest)).1 = HttpResult.ok (matchResponse r) := by
  induction skipped with
  | nil =>
    cases h : processRule s q r with
    | noMatch => exact absurd h hr
    | matchNoGroups => simp [validateLoop, h]
    | matchWithAudit => simp [validateLoop, h]
  | cons rp skippedTail ih =>
    have h := hskip rp (List.mem_cons_self rp skippedTail)
    have htail : ∀ r2 ∈ skippedTail, processRule s q r2 = RuleStep.noMatch :=
      fun r2 hr2 => hskip r2 (List.mem_cons_of_mem _ hr2)
    simpa [validateLoop, h] using ih htail

/-- C1: the claim that a rule whose validUntil is set and not later than the
current time never matches fails on the code.  The validate handler never
reads validUntil: its rule query filters on ruleType and status only, and the
per-rule loop checks basic criteria, year and condition groups.  A rule that
expired at timestamp 0, hence at or before every possible current time,
still participates, matches, determines the verdict and is written to the
audit log. -/
theorem C1_expired_rule_participates :
    c1Rule.validUntil = some 0 ∧
    applicableRules c1Store c1Query = [c1Rule] ∧
    validate c1Store c1Query false =
      (HttpResult.ok { isMatch := true, action := some "POZVI - NESLIBUJ",
                       actionMessage := some "invite" },
        [{ ruleId := some 1, success := true }]) :=
  ⟨rfl, rfl, rfl⟩

/-- C2: the claim that every validation appends exactly one audit entry fails
on the code.  When a rule passes the basic criteria and owns zero condition
groups, the handler returns the match response before the audit insert is
ever reached, so the call appends no audit entry at all. -/
theorem C2_match_without_audit_entry :
    (validate c2Store c2Query false).1 =
      HttpResult.ok { isMatch := true, action := some "NEZVI - NECHCEME",
                      actionMessage := some "reject" } ∧
    (validate c2Store c2Query false).2 = [] :=
  ⟨rfl, rfl⟩

/-- C3: on the OR-unit of the second rule of the repository test suite - two
conditions on make sharing or-group 1, candidate make 6 - the first group
matcher returns false, because its Map always holds a bucket for null-tagged
conditions and that bucket is empty here, so the every-bucket check fails.
The claimed unit semantics, and the second group matcher, return true, and
the repository test expects the rule to match. -/
theorem C3_null_bucket_blocks_or_group :
    groupMatchesV1 c3Fields [c3CondA, c3CondB] = false ∧
    groupMatchesV2 c3Fields [c3CondA, c3CondB] = true ∧
    unitsSatisfied (evalConditionV1 c3Fields) [c3CondA, c3CondB] = true ∧
    unitsSatisfied (evalConditionV2 c3Fields) [c3CondA, c3CondB] = true :=
  ⟨rfl, rfl, rfl, rfl⟩

/-- C4: the first operator evaluator treats BETWEEN as inclusive on both
bounds, as the claim and the repository test expect; the second evaluator has
no BETWEEN case at all, so the same in-range candidate of the repository test
falls to the default branch and yields false. -/
theorem C4_between_missing_in_second_variant :
    evalOperatorV2 "BETWEEN" "100000,500000" (JsVal.num 200000) = false ∧
    evalOperatorV1 "BETWEEN" "100000,500000" (JsVal.num 200000) = true ∧
    evalOperatorV1 "BETWEEN" "100000,500000" (JsVal.num 100000) = true ∧
    evalOperatorV1 "BETWEEN" "100000,500000" (JsVal.num 500000) = true ∧
    evalOperatorV1 "BETWEEN" "100000,500000" (JsVal.num 99999) = false :=
  ⟨rfl, rfl, rfl, rfl, rfl⟩

/-- C5 counterexample: the claim says IN segments are trimmed before the
membership test, but the second operator evaluator compares raw segments:
stored value with blanks around B and candidate B do not match, while the
trimmed membership the claim describes holds. -/
theorem C5_untrimmed_membership_cex :
    evalOperatorV2 "IN" "A, B,C" (JsVal.str "B") = false ∧
    ((splitComma "A, B,C").map jsTrim).contains "B" = true :=
  ⟨rfl, rfl⟩

/-- C5 amended: the first evaluator tests membership of the stringified
candidate in the comma-split, trimmed segments and NOT IN negates that test;
the second evaluator uses the raw comma-split segments without trimming, its
NOT IN again negating its own membership test. -/
theorem C5_in_membership_amended (storedValue : String) (value : JsVal) :
    evalOperatorV1 "IN" storedValue value
        = ((splitComma storedValue).map jsTrim).contains (jsToString value) ∧
    evalOperatorV1 "NOT IN" storedValue value = !evalOperatorV1 "IN" storedValue value ∧
    evalOperatorV2 "IN" storedValue value
        = (splitComma storedValue).contains (jsToString value) ∧
    evalOperatorV2 "NOT IN" storedValue value = !evalOperatorV2 "IN" storedValue value :=
  ⟨rfl, rfl, rfl, rfl⟩

/-- C6: with a working audit store the handler always answers 200, and the
body is the match response of a matching applicable rule - isMatch true, the
action of the rule and its action message - or, when no applicable rule
matches, exactly isMatch false, action null and the literal message No
matching rules found. -/
theorem C6_response_contract (s : Store) (q : ValidationQuery) :
    ∃ resp : ValidationResponse,
      (validate s q false).1 = HttpResult.ok resp ∧
      ((∃ r ∈ applicableRules s q, processRule s q r ≠ RuleStep.noMatch ∧
          resp = { isMatch := true, action := some r.action,
                   actionMessage := r.actionMessage }) ∨
        ((∀ r ∈ applicableRules s q, processRule s q r = RuleStep.noMatch) ∧
          resp = { isMatch := false, action := none,
                   actionMessage := some "No matching rules found" })) :=
  validateLoop_no_audit_failure s q (applicableRules s q)

/-- C7 counterexample: the claim says a failing audit insert never alters the
validation outcome.  On a store whose only rule matches through its condition
group, the call with a working audit store returns the match response and one
audit row; the same call with a failing audit store returns the 500 error of
the outer catch and no row, because the caught match-path failure skips the
matched rule and the no-match insert then fails outside the per-rule try. -/
theorem C7_audit_failure_changes_outcome_cex :
    validate c7Store c7Query false =
      (HttpResult.ok { isMatch := true, action := some "POZVI - NESLIBUJ",
                       actionMessage := some "invite" },
        [{ ruleId := some 7, success := true }]) ∧
    validate c7Store c7Query true = (HttpResult.serverError, []) :=
  ⟨rfl, rfl⟩

/-- C7 amended: when the audit store fails, the call appends nothing and the
caller receives the 500 error, except that a matching rule with zero
condition groups still produces its match response because that return path
never attempts an audit insert.  The failure is thus not swallowed: the
match-path insert failure is caught per rule and skips the matched rule, and
the no-match insert failure reaches the outer catch. -/
theorem C7_audit_failure_amended (s : Store) (q : ValidationQuery) :
    (validate s q true).2 = [] ∧
    ((validate s q true).1 = HttpResult.serverError ∨
      ∃ r ∈ applicableRules s q, processRule s q r = RuleStep.matchNoGroups ∧
        (validate s q true).1 = HttpResult.ok (matchResponse r)) :=
  validateLoop_audit_failure s q (applicableRules s q)

/-- C8 counterexample: the claim says rules are scanned in ascending
identifier order.  On a store that returns the rule with identifier 2 before
the rule with identifier 1 - both matching - the verdict carries the action
of rule 2, the first in store order, not of rule 1, the first by identifier;
the rules query has no order clause, so nothing pins the store order to the
identifiers. -/
theorem C8_store_order_not_id_order_cex :
    c8Store.rules.map Rule.ruleId = [2, 1] ∧
    processRule c8Store c8Query c8RuleA ≠ RuleStep.noMatch ∧
    c8RuleA.action = "POZVI - NESLIBUJ" ∧
    (validate c8Store c8Query false).1 =
      HttpResult.ok { isMatch := true, action := some "NEZVI - NECHCEME",
                      actionMessage := some "first in store order" } :=
  ⟨rfl, by decide, rfl, rfl⟩

/-- C8 amended: the handler scans the applicable rules in the order the store
returns them and the first rule whose step is not noMatch shapes the
response, with no rule after it evaluated into the verdict; repeated
identical queries over the same returned list therefore select the same
rule.  Ascending identifier order itself is not guaranteed, since the rules
query has no order clause. -/
theorem C8_first_match_in_store_order (s : Store) (q : ValidationQuery)
    (skipped rest : List Rule) (r : Rule)
    (happ : applicableRules s q = skipped ++ r :: rest)
    (hskip : ∀ rp ∈ skipped, processRule s q rp = RuleStep.noMatch)
    (hr : processRule s q r ≠ RuleStep.noMatch) :
    (validate s q false).1 = HttpResult.ok (matchResponse r) := by
  rw [validate, happ]
  exact validateLoop_first_match s q skipped rest r hskip hr

/-- C8 witness: on the concrete two-rule store, the first rule in store order
wins even though a later rule also matches. -/
theorem C8_first_match_witness :
    (validate c8Store c8Query false).1 = HttpResult.ok (matchResponse c8RuleB) :=
  C8_first_match_in_store_order c8Store c8Query [] [c8RuleA] c8RuleB rfl
    (by simp) (by decide)

/-- C9: a condition whose request field is undefined or null evaluates to
false under both handlers whatever its operator, and an operator outside the
nine known ones evaluates to false on every value under both operator
switches, without any exception escaping. -/
theorem C9_absent_value_and_unknown_operator (c : Condition) (fields : String → Option JsVal) :
    ((fields c.parameter = none ∨ fields c.parameter = some JsVal.nullV) →
      evalConditionV1 fields c = false ∧ evalConditionV2 fields c = false) ∧
    (c.operator ∉ ["=", "!=", ">", "<", ">=", "<=", "IN", "NOT IN", "BETWEEN"] →
      ∀ v : JsVal, evalOperatorV1 c.operator c.value v = false ∧
        evalOperatorV2 c.operator c.value v = false) := by
  constructor
  · intro h
    rcases h with h | h <;> simp [evalConditionV1, evalConditionV2, h]
  · intro hop v
    simp only [List.mem_cons, List.not_mem_nil, or_false, not_or] at hop
    obtain ⟨h1, h2, h3, h4, h5, h6, h7, h8, h9⟩ := hop
    simp [evalOperatorV1, evalOperatorV2, h1, h2, h3, h4, h5, h6, h7, h8, h9]

/-- C10: the year pre-filter.  When any of yearComparison of the query,
makeYear of the query and makeYear of the rule is absent or falsy the year
check passes; when all three are truthy the check is the comparison selected
by yearComparison, an unrecognized comparison passing; and a rule failing the
year check is rejected before its condition groups are consulted. -/
theorem C10_year_pre_filter (s : Store) (q : ValidationQuery) (r : Rule) :
    ((optStrTruthy q.yearComparison = false ∨ optIntTruthy q.makeYear = false ∨
        optIntTruthy r.makeYear = false) → yearMatches q r = true) ∧
    (∀ yc : String, ∀ qy ry : Int,
      q.yearComparison = some yc → q.makeYear = some qy → r.makeYear = some ry →
      yc ≠ "" → qy ≠ 0 → ry ≠ 0 →
      yearMatches q r =
        (if yc = "=" then qy == ry
         else if yc = ">" then decide (qy > ry)
         else if yc = "<" then decide (qy < ry)
         else true)) ∧
    (yearMatches q r = false → processRule s q r = RuleStep.noMatch) := by
  refine ⟨?_, ?_, ?_⟩
  · intro h
    rcases h with h | h | h <;> simp [yearMatches, h]
  · intro yc qy ry h1 h2 h3 h4 h5 h6
    simp [yearMatches, h1, h2, h3, optStrTruthy, optIntTruthy, h4, h5, h6]
  · intro h
    cases hb : basicMatches q r <;> simp [processRule, h, hb]

end AcbsBlacklist
